import Mathlib

/-!
Verification development for a Python integration layer that wraps the
Substance 3D Automation Toolkit command-line tools (sbscooker, sbsrender)
for use inside a node-based host.

The definitions below are a shallow embedding of the Python source:
  * `src/utils/__init__.py`   (SubstanceToolBase: path validation, command runner)
  * `src/utils/sbscooker.py`  (SubstanceCookerTool.cook)
  * `src/utils/sbsrender.py`  (SubstanceRenderTool.render, _organize_output_files)
  * `src/utils/image_utils.py` (tensor/image bridge)
  * `src/nodes/substance_batch_processor.py` (process_batch, _process_single_file)

Filesystem state is passed explicitly (`FS`), subprocess execution is an
explicit outcome/runner parameter, Python exceptions become `Except`,
machine floats on the image path become exact rationals (pixel bytes are
`Fin 256`, normalisation divides by 255), and the trace of argument vectors
handed to the command runner is returned alongside each adapter result so
that "no subprocess was spawned" is expressible.
-/

namespace Substance

/-! ### String helpers -/

/-- Does the character list `l` start with `p`?  (List-level `startswith`.) -/
def charsStartWith : List Char → List Char → Bool
  | [], _ => true
  | _ :: _, [] => false
  | p :: ps, c :: cs => p == c && charsStartWith ps cs

/-- Does `hay` contain `pat` as a contiguous run?  This models Python
`re.search(pat, hay)` for the literal (metacharacter-free) patterns used by
`_organize_output_files`. -/
def charsContains : List Char → List Char → Bool
  | [], pat => pat.isEmpty
  | c :: rest, pat => charsStartWith pat (c :: rest) || charsContains rest pat

/-- `re.search` of a literal pattern inside a string: substring containment. -/
def strContainsSub (s pat : String) : Bool :=
  charsContains s.data pat.data

/-- `str.lower()`.  (Defined over the character list so it reduces in the
kernel; `String.toLower` itself recurses on byte positions.) -/
def strToLower (s : String) : String := String.mk (s.data.map Char.toLower)

/-- `str.endswith(post)`: suffix check over the character lists. -/
def strEndsWith (s post : String) : Bool :=
  charsStartWith post.data.reverse s.data.reverse

/-- `os.path.join(dir, name)` on POSIX-style already-normalised paths. -/
def joinPath (dir name : String) : String := dir ++ "/" ++ name

/-- The final path component, as in `pathlib.PurePath.name` (for paths
without a trailing slash): everything after the last `/`. -/
def basename (p : String) : String :=
  String.mk (p.data.reverse.takeWhile (fun c => !(c == '/'))).reverse

/-- Index of the last occurrence of a dot in a character list (Python
`str.rfind`, restricted to the dot character). -/
def rfindDot : List Char → Option Nat
  | [] => none
  | c :: cs =>
    match rfindDot cs with
    | some i => some (i + 1)
    | none => if c == '.' then some 0 else none

/-- `pathlib.Path(p).stem`: the final component without its suffix.  The
suffix is the part from the last dot, provided that dot is neither the first
nor the last character of the name. -/
def stem (p : String) : String :=
  let name := basename p
  let cs := name.data
  match rfindDot cs with
  | none => name
  | some i => if 0 < i ∧ i + 1 < cs.length then String.mk (cs.take i) else name

/-- Python truthiness of an optional string argument (`if output_name:`):
`None` and the empty string are falsy. -/
def optTruthy : Option String → Bool
  | none => false
  | some s => !(s == "")

/-- Python truthiness of an optional integer argument (`if cpu_count:`):
`None` and `0` are falsy. -/
def optNatTruthy : Option Nat → Bool
  | none => false
  | some n => !(n == 0)

/-- `key.replace("_", "-")` used when translating keyword arguments into
command-line flag names. -/
def dashify (k : String) : String := k.replace "_" "-"

/-- Is an `Except` value a success?  (Used to count per-unit results and to
state that an operation failed.) -/
def exceptIsOk {ε α : Type} : Except ε α → Bool
  | .ok _ => true
  | .error _ => false

/-! ### Filesystem and subprocess model -/

/-- Explicit filesystem state: which paths exist, and the entries returned by
`os.listdir` for a directory.  Paths are taken to be already resolved, so
`Path.resolve()` is the identity in this model. -/
structure FS where
  pathExists : String → Bool
  listdir : String → List String

/-- `subprocess.CompletedProcess` restricted to the fields the wrapper reads. -/
structure CompletedProcess where
  returncode : Int
  stdout : String
  stderr : String
deriving Repr, DecidableEq

/-- Possible outcomes of one `subprocess.run` call, as observed by
`SubstanceToolBase._run_command`. -/
inductive ProcOutcome where
  | completed (returncode : Int) (stdout stderr : String)
  | timeoutExpired
  | fileNotFound
  | otherError (msg : String)
deriving Repr, DecidableEq

/-- The message of the `SubstanceToolError` raised on a non-zero exit code:
`"Command failed with return code {rc}"`, extended with `": {stderr}"` when
stderr is non-empty. -/
def execFailedMsg (rc : Int) (stderr : String) : String :=
  let base := "Command failed with return code " ++ toString rc
  if stderr == "" then base else base ++ ": " ++ stderr

/-- Rendering of the `timeout` argument inside the timeout error message
(`None` prints as `"None"` in Python). -/
def timeoutRepr : Option Nat → String
  | none => "None"
  | some n => toString n

/-- `SubstanceToolBase._run_command` (src/utils/__init__.py, lines 88-132).
The external process is modelled by `spawn`, giving the outcome the `i`-th
spawned subprocess would have; the embedding returns the wrapper result
together with the number of subprocesses actually spawned.  The Python body
is a single straight-line `subprocess.run` call with no loop, so exactly one
outcome is consumed.  The `SubstanceToolError` raised on a non-zero exit
code sits inside the `try` block and matches neither the
`TimeoutExpired` nor the `FileNotFoundError` handler, so the final
`except Exception` handler re-wraps it: the surfaced message is
`"Command execution failed: "` followed by the inner message.  The timeout
and file-not-found errors are raised from inside except clauses and are not
re-wrapped. -/
def run_command (tool_path : String) (timeout : Option Nat)
    (spawn : Nat → ProcOutcome) : Except String CompletedProcess × Nat :=
  (match spawn 0 with
   | .completed rc out err =>
     if rc ≠ 0 then .error ("Command execution failed: " ++ execFailedMsg rc err)
     else .ok { returncode := rc, stdout := out, stderr := err }
   | .timeoutExpired =>
     .error ("Command timed out after " ++ timeoutRepr timeout ++ " seconds")
   | .fileNotFound => .error ("Tool not found: " ++ tool_path)
   | .otherError m => .error ("Command execution failed: " ++ m),
   1)

/-- `SubstanceToolBase._validate_file_path` (src/utils/__init__.py, lines
134-156), with `Path.resolve()` modelled as the identity. -/
def validate_file_path (fs : FS) (file_path : String) (must_exist : Bool) :
    Except String String :=
  if file_path == "" then .error "File path cannot be empty"
  else if must_exist && !(fs.pathExists file_path) then
    .error ("File does not exist: " ++ file_path)
  else .ok file_path

/-! ### Cooker adapter (src/utils/sbscooker.py) -/

/-- Value of a `**kwargs` entry: booleans become bare flags when true, all
other values are stringified. -/
inductive KwargValue where
  | boolean (b : Bool)
  | other (s : String)
deriving Repr, DecidableEq

/-- Flag translation of the `**kwargs` pass-through loop shared by `cook`
and `render`. -/
def kwargFlags : List (String × KwargValue) → List String
  | [] => []
  | (k, .boolean b) :: rest =>
    (if b then ["--" ++ dashify k] else []) ++ kwargFlags rest
  | (k, .other v) :: rest => ["--" ++ dashify k, v] ++ kwargFlags rest

/-- Arguments of `SubstanceCookerTool.cook`. -/
structure CookRequest where
  input_files : List String
  output_path : String
  output_name : Option String := none
  merge : Bool := false
  enable_icons : Bool := true
  no_archive : Bool := false
  optimization_level : Int := 1
  verbose : Bool := false
  kwargs : List (String × KwargValue) := []

/-- Result dictionary of `cook`. -/
structure CookResult where
  success : Bool
  output_files : List String
  output_directory : String
  command_output : String
  command_args : List String
  input_files : List String

/-- The optimization-level flag table of `cook` (src/utils/sbscooker.py,
lines 84-92).  Levels outside 0-3 fall through and emit nothing. -/
def optimizationFlags (level : Int) : List String :=
  if level = 0 then ["--crc", "1", "--full", "0"]
  else if level = 1 then ["--full", "1"]
  else if level = 2 then ["--full", "1", "--merge-graph", "1"]
  else if level = 3 then
    ["--full", "1", "--merge-graph", "1", "--merge-data", "1", "--reordering", "1"]
  else []

/-- The argument-vector segments of `cook` that precede the optimization
flags (src/utils/sbscooker.py, lines 63-82). -/
def cookArgsBase (validated : List String) (output_dir : String)
    (req : CookRequest) : List String :=
  ["cook"] ++ ["--inputs"] ++ validated ++ ["--output-path", output_dir] ++
  (if optTruthy req.output_name then
    ["--output-name", req.output_name.getD ""] else []) ++
  (if req.merge then ["--merge"] else []) ++
  (if req.enable_icons then ["--enable-icons"] else []) ++
  (if req.no_archive then ["--no-archive"] else [])

/-- The argument-vector segments of `cook` that follow the optimization
flags (src/utils/sbscooker.py, lines 94-105). -/
def cookArgsTail (req : CookRequest) : List String :=
  (if req.verbose then ["--verbose"] else ["--quiet"]) ++ kwargFlags req.kwargs

/-- The full argument vector built by `cook` before the subprocess call. -/
def cookBuildArgs (validated : List String) (output_dir : String)
    (req : CookRequest) : List String :=
  cookArgsBase validated output_dir req ++
  optimizationFlags req.optimization_level ++ cookArgsTail req

/-- The input-validation loop of `cook` (src/utils/sbscooker.py, lines
51-57): every input must exist and carry the `.sbs` extension
(case-insensitively); the first offender raises. -/
def validateInputs (fs : FS) : List String → Except String (List String)
  | [] => .ok []
  | f :: rest =>
    match validate_file_path fs f true with
    | .error e => .error e
    | .ok v =>
      if !(strEndsWith (strToLower v) ".sbs") then
        .error ("Input file must be .sbs format: " ++ f)
      else
        match validateInputs fs rest with
        | .error e => .error e
        | .ok vs => .ok (v :: vs)

/-- The post-run output probing of `cook` (src/utils/sbscooker.py, lines
110-126): with `merge` and a truthy `output_name`, only
`{output_name}.sbsar` is probed; otherwise one `{base}.sbsar` per input is
probed, where `base` is the input stem unless `output_name` is truthy. -/
def cookOutputFiles (fsAfter : FS) (output_dir : String)
    (validated : List String) (output_name : Option String) (merge : Bool) :
    List String :=
  if merge && optTruthy output_name then
    let f := joinPath output_dir (output_name.getD "" ++ ".sbsar")
    if fsAfter.pathExists f then [f] else []
  else
    validated.filterMap (fun input =>
      let base := if optTruthy output_name then output_name.getD "" else stem input
      let f := joinPath output_dir (base ++ ".sbsar")
      if fsAfter.pathExists f then some f else none)

/-- `SubstanceCookerTool.cook` (src/utils/sbscooker.py, lines 21-134).
`fs` is the filesystem at validation time, `fsAfter` the filesystem probed
after the subprocess ran, `runner` the command runner (in the source,
`_run_command` with a 300-second timeout).  The second component of the
result is the list of argument vectors handed to the runner. -/
def cook (fs fsAfter : FS)
    (runner : List String → Except String CompletedProcess)
    (req : CookRequest) : Except String CookResult × List (List String) :=
  match validateInputs fs req.input_files with
  | .error e => (.error e, [])
  | .ok validated =>
    let output_dir := req.output_path
    let args := cookBuildArgs validated output_dir req
    match runner args with
    | .error e => (.error e, [args])
    | .ok result =>
      let output_files :=
        cookOutputFiles fsAfter output_dir validated req.output_name req.merge
      (.ok { success := true
             output_files := output_files
             output_directory := output_dir
             command_output := result.stdout
             command_args := args
             input_files := validated }, [args])

/-! ### Renderer adapter (src/utils/sbsrender.py) -/

/-- Arguments of `SubstanceRenderTool.render`.  Dictionaries are modelled as
association lists in insertion order (Python dicts preserve it). -/
structure RenderRequest where
  sbsar_file : String
  output_path : String
  output_format : String := "png"
  output_name : Option String := none
  bit_depth : String := "8"
  resolution : Option Nat := none
  graph_selection : Option String := none
  output_selection : Option String := none
  parameters : List (String × String) := []
  image_entries : List (String × String) := []
  preset_name : Option String := none
  cpu_count : Option Nat := none
  memory_budget : Option Nat := none
  verbose : Bool := false
  kwargs : List (String × KwargValue) := []

/-- Result dictionary of `render`. -/
structure RenderResult where
  success : Bool
  output_files : List String
  organized_outputs : List (String × List String)
  output_directory : String
  command_output : String
  command_args : List String
  input_file : String
  format : String
  bit_depth : String

/-- The `--set-entry` loop of `render` (src/utils/sbsrender.py, lines
150-156): each referenced image path must exist, the first missing one
raising `SubstanceToolError` before any flags are produced. -/
def imageEntryFlags (fs : FS) : List (String × String) → Except String (List String)
  | [] => .ok []
  | (param_name, image_path) :: rest =>
    if !(fs.pathExists image_path) then
      .error ("Image entry file not found: " ++ image_path)
    else
      match imageEntryFlags fs rest with
      | .error e => .error e
      | .ok flags => .ok (["--set-entry", param_name ++ "@" ++ image_path] ++ flags)

/-- The argument vector built by `render` before the subprocess call
(src/utils/sbsrender.py, lines 122-184).  Fails if some `image_entries`
path is missing. -/
def renderBuildArgs (fs : FS) (validated_sbsar output_dir : String)
    (req : RenderRequest) : Except String (List String) :=
  match imageEntryFlags fs req.image_entries with
  | .error e => .error e
  | .ok entryFlags =>
    .ok (["render"] ++ ["--input", validated_sbsar] ++
      ["--output-path", output_dir] ++ ["--output-format", req.output_format] ++
      (if optTruthy req.output_name then
        ["--output-name", req.output_name.getD ""] else []) ++
      (if !(req.bit_depth == "") then
        ["--output-bit-depth", req.bit_depth] else []) ++
      (if optTruthy req.graph_selection then
        ["--input-graph", req.graph_selection.getD ""] else []) ++
      (if optTruthy req.output_selection then
        ["--input-graph-output", req.output_selection.getD ""] else []) ++
      (req.parameters.map (fun kv => ["--set-value", kv.1 ++ "@" ++ kv.2])).flatten ++
      entryFlags ++
      (if optTruthy req.preset_name then
        ["--use-preset", req.preset_name.getD ""] else []) ++
      (if optNatTruthy req.cpu_count then
        ["--cpu-count", toString (req.cpu_count.getD 0)] else []) ++
      (if optNatTruthy req.memory_budget then
        ["--memory-budget", toString (req.memory_budget.getD 0)] else []) ++
      (if optNatTruthy req.resolution then
        ["--output-size",
          toString (req.resolution.getD 0) ++ "," ++ toString (req.resolution.getD 0)]
       else []) ++
      (if req.verbose then ["--verbose"] else ["--quiet"]) ++
      kwargFlags req.kwargs)

/-! ### Output categorizer (src/utils/sbsrender.py, lines 211-262) -/

/-- The fixed category keys of the `organized` dictionary, in insertion
order. -/
def categories : List String :=
  ["diffuse", "normal", "roughness", "metallic", "height",
   "ambient_occlusion", "emission", "opacity", "other"]

/-- The pattern table, in iteration order; every pattern is a literal, so
`re.search` is substring containment. -/
def patternTable : List (String × List String) :=
  [("diffuse", ["diffuse", "albedo", "basecolor", "color"]),
   ("normal", ["normal", "normalmap"]),
   ("roughness", ["roughness", "rough"]),
   ("metallic", ["metallic", "metal"]),
   ("height", ["height", "displacement", "disp"]),
   ("ambient_occlusion", ["ao", "ambient", "occlusion"]),
   ("emission", ["emission", "emissive"]),
   ("opacity", ["opacity", "alpha", "transparency"])]

/-- The category assigned to one file by the pattern loop: the filename stem
is lower-cased and the table is scanned in order, the first category one of
whose patterns occurs in the stem winning; files matching nothing fall into
`"other"`. -/
def categorize (file_path : String) : String :=
  match patternTable.find? (fun cp =>
    cp.2.any (fun pat => strContainsSub (strToLower (stem file_path)) pat)) with
  | some cp => cp.1
  | none => "other"

/-- One step of the categorisation loop: append `f` to the list of category
`c` in the association list `m`. -/
def addToCategory (m : List (String × List String)) (c f : String) :
    List (String × List String) :=
  m.map (fun kv => if kv.1 == c then (kv.1, kv.2 ++ [f]) else kv)

/-- The initial `organized` dictionary: every category mapped to `[]`. -/
def organizedInit : List (String × List String) :=
  categories.map (fun c => (c, []))

/-- `SubstanceRenderTool._organize_output_files`: distribute the files over
the fixed categories, then drop empty categories. -/
def organize_output_files (output_files : List String) :
    List (String × List String) :=
  (output_files.foldl (fun m f => addToCategory m (categorize f) f)
    organizedInit).filter (fun kv => !kv.2.isEmpty)

/-- The output-file discovery of `render` (src/utils/sbsrender.py, lines
189-194): every entry of the output directory whose lower-cased name ends
with the requested format extension, joined onto the directory. -/
def renderDiscover (fsAfter : FS) (output_dir output_format : String) :
    List String :=
  if fsAfter.pathExists output_dir then
    (fsAfter.listdir output_dir).filterMap (fun file =>
      if strEndsWith (strToLower file) ("." ++ strToLower output_format) then
        some (joinPath output_dir file)
      else none)
  else []

/-- `SubstanceRenderTool.render` (src/utils/sbsrender.py, lines 72-209).
`fs` is the filesystem at validation time, `fsAfter` the filesystem scanned
for outputs after the subprocess ran, `runner` the command runner (in the
source, `_run_command` with a 600-second timeout).  The second component is
the list of argument vectors handed to the runner. -/
def render (fs fsAfter : FS)
    (runner : List String → Except String CompletedProcess)
    (req : RenderRequest) : Except String RenderResult × List (List String) :=
  match validate_file_path fs req.sbsar_file true with
  | .error e => (.error e, [])
  | .ok validated_sbsar =>
    if !(strEndsWith (strToLower validated_sbsar) ".sbsar") then
      (.error ("Input file must be .sbsar format: " ++ req.sbsar_file), [])
    else
      let output_dir := req.output_path
      match renderBuildArgs fs validated_sbsar output_dir req with
      | .error e => (.error e, [])
      | .ok args =>
        match runner args with
        | .error e => (.error e, [args])
        | .ok result =>
          let output_files := renderDiscover fsAfter output_dir req.output_format
          (.ok { success := true
                 output_files := output_files
                 organized_outputs := organize_output_files output_files
                 output_directory := output_dir
                 command_output := result.stdout
                 command_args := args
                 input_file := validated_sbsar
                 format := req.output_format
                 bit_depth := req.bit_depth }, [args])

/-! ### Batch processor (src/nodes/substance_batch_processor.py)

The batch claims concern how per-unit outcomes are aggregated into the
summary, so the two tool calls inside `_process_single_file` are modelled by
their observable outcomes (`PhaseOutcome`), and the one statement of that
function that runs before its internal `try` block and can therefore raise
out of the unit (`os.makedirs`) is modelled by an optional error. -/

/-- Outcome of one tool call (`cooker.cook` / `renderer.render`) inside a
batch unit: either the result dictionary's `output_files` list, or a raised
exception message.  Both tools set `success: True` on every dictionary they
return, so the returned dictionary is summarised by its file list. -/
inductive PhaseOutcome where
  | ok (output_files : List String)
  | raise (msg : String)
deriving Repr, DecidableEq

/-- The environment of one batch unit (one input file × one parameter set):
what `os.makedirs` and the two tool calls would do for it. -/
structure UnitEnv where
  makedirsOutcome : Option String := none
  cookOutcome : PhaseOutcome := .ok []
  renderOutcome : PhaseOutcome := .ok []
deriving Repr, DecidableEq

/-- The fields of the per-unit result dictionary of `_process_single_file`
that the batch claims depend on. -/
structure UnitResult where
  success : Bool
  error : Option String
  cooked_file : Option String
  rendered_files : List String
deriving Repr, DecidableEq

/-- `SubstanceBatchProcessor._process_single_file`
(src/nodes/substance_batch_processor.py, lines 279-372).  `os.makedirs` runs
before the internal `try` block, so its failure propagates out of the unit
(`Except.error`); every tool failure inside the `try` is caught and turned
into a returned result dictionary with `success = false` and the exception
text in `error`. -/
def process_single_file (env : UnitEnv) (operation_mode : String) :
    Except String UnitResult :=
  match env.makedirsOutcome with
  | some msg => .error msg
  | none =>
    if operation_mode == "cook_only" || operation_mode == "cook_and_render" then
      match env.cookOutcome with
      | .raise m =>
        .ok { success := false, error := some m
              cooked_file := none, rendered_files := [] }
      | .ok cook_files =>
        if cook_files.isEmpty then
          .ok { success := false, error := some "Cooking failed"
                cooked_file := none, rendered_files := [] }
        else
          let cooked := cook_files.headD ""
          if operation_mode == "cook_and_render" then
            match env.renderOutcome with
            | .raise m =>
              .ok { success := false, error := some m
                    cooked_file := some cooked, rendered_files := [] }
            | .ok render_files =>
              .ok { success := true, error := none
                    cooked_file := some cooked, rendered_files := render_files }
          else
            .ok { success := true, error := none
                  cooked_file := some cooked, rendered_files := [] }
    else if operation_mode == "render_only" then
      match env.renderOutcome with
      | .raise m =>
        .ok { success := false, error := some m
              cooked_file := none, rendered_files := [] }
      | .ok render_files =>
        .ok { success := true, error := none
              cooked_file := none, rendered_files := render_files }
    else
      .ok { success := true, error := none
            cooked_file := none, rendered_files := [] }

/-- The file × parameter-set units scheduled by `process_batch` (lines
203-224): with a non-empty parameter-set list, one unit per file per
parameter index; otherwise one unit per file at index `0`. -/
def batchUnits (input_files : List String) (numParamSets : Nat) :
    List (String × Nat) :=
  if numParamSets == 0 then input_files.map (fun f => (f, 0))
  else (input_files.map (fun f =>
    (List.range numParamSets).map (fun i => (f, i)))).flatten

/-- Round `num / den` to the nearest integer, ties to even — the rounding
performed by Python float formatting with `:.1f` (applied here to tenths). -/
def roundHalfEven (num den : Nat) : Nat :=
  let q := num / den
  let r := num % den
  if 2 * r < den then q
  else if den < 2 * r then q + 1
  else if q % 2 == 0 then q else q + 1

/-- `f"{(processed / expected * 100):.1f}%"`: the success rate in tenths of
a percent, printed with one decimal digit. -/
def successRateStr (processed expected : Nat) : String :=
  let tenths := roundHalfEven (processed * 1000) expected
  toString (tenths / 10) ++ "." ++ toString (tenths % 10) ++ "%"

/-- The summary dictionary fields of `process_batch` that the batch claims
depend on (src/nodes/substance_batch_processor.py, lines 244-261). -/
structure BatchSummary where
  total_input_files : Nat
  parameter_variations : Nat
  total_expected_outputs : Nat
  successfully_processed : Nat
  errors : Nat
  success_rate : String
deriving Repr, DecidableEq

/-- The result-collection loop of `process_batch` (lines 226-242): a future
whose `result()` returns is appended to `processed_files` (whatever its
`success` field says), a future whose `result()` raises is appended to
`errors`.  The summary only depends on the two counts, which are order
independent, so the `as_completed` ordering needs no model. -/
def process_batch (input_files : List String)
    (parameter_sets : List (List (String × String)))
    (env : String → Nat → UnitEnv) (operation_mode : String) : BatchSummary :=
  let units := batchUnits input_files parameter_sets.length
  let results := units.map (fun fi => process_single_file (env fi.1 fi.2) operation_mode)
  let total_files := input_files.length
  let total_variations := if parameter_sets.isEmpty then 1 else parameter_sets.length
  let total_expected := total_files * total_variations
  let total_processed := results.countP (fun r => exceptIsOk r)
  let total_errors := results.countP (fun r => !(exceptIsOk r))
  { total_input_files := total_files
    parameter_variations := total_variations
    total_expected_outputs := total_expected
    successfully_processed := total_processed
    errors := total_errors
    success_rate :=
      if 0 < total_expected then successRateStr total_processed total_expected
      else "0%" }

/-! ### Image bridge (src/utils/image_utils.py)

Pixel bytes are `Fin 256` (numpy `uint8`); tensors carry their shape and a
flattened list of exact rational entries, so `float32` rounding — irrelevant
to the shape/range claims — is not modelled. -/

/-- A PIL image: its mode string and an H × W grid of pixels, each pixel a
list of channel bytes. -/
structure PILImage where
  mode : String
  pixels : List (List (List (Fin 256)))

/-- PIL's representation contract: an image in `"RGB"` mode stores exactly
three channel bytes per pixel. -/
def PILImage.wfRGB (img : PILImage) : Bool :=
  !(img.mode == "RGB") ||
    img.pixels.all (fun row => row.all (fun px => px.length == 3))

/-- The RGB value of one pixel under `Image.convert("RGB")`: the library
conversion is external, but it always yields three channel bytes per pixel
(grayscale replicates the single channel, alpha channels are dropped). -/
def rgbOfPixel (px : List (Fin 256)) : List (Fin 256) :=
  [px.getD 0 0, px.getD 1 (px.getD 0 0), px.getD 2 (px.getD 0 0)]

/-- `image.convert("RGB")` as called by `load_image_as_tensor` (lines
36-37): the identity on images already in RGB mode. -/
def convertRGB (img : PILImage) : PILImage :=
  if img.mode == "RGB" then img
  else { mode := "RGB", pixels := img.pixels.map (fun row => row.map rgbOfPixel) }

/-- A ComfyUI tensor: its shape and flattened entries. -/
structure Tensor where
  dims : List Nat
  entries : List ℚ
deriving DecidableEq

/-- `tensor.shape[1:3]` — the height/width pair compared across a batch. -/
def tensorHW (t : Tensor) : List Nat := (t.dims.drop 1).take 2

/-- `load_image_as_tensor` (src/utils/image_utils.py, lines 15-52):
checks existence, converts to RGB, divides every byte by 255 and adds a
batch dimension, giving shape `[1, H, W, 3]` (the numpy array of an RGB PIL
image has shape `(H, W, 3)`).  `imgs` maps a path to the image PIL would
decode there. -/
def load_image_as_tensor (fs : FS) (imgs : String → PILImage) (image_path : String) :
    Except String Tensor :=
  if !(fs.pathExists image_path) then
    .error ("Image file does not exist: " ++ image_path)
  else
    let img := convertRGB (imgs image_path)
    .ok { dims := [1, img.pixels.length, (img.pixels.headD []).length, 3]
          entries :=
            ((img.pixels.flatten).map (fun px =>
              px.map (fun c => ((c.val : ℚ) / 255)))).flatten }

/-- `torch.cat(tensors, dim=0)`: batch sizes add, trailing dimensions come
from the first tensor, entries concatenate. -/
def catTensors (ts : List Tensor) : Tensor :=
  { dims := ts.foldl (fun s t => s + t.dims.headD 0) 0 ::
      (ts.headD { dims := [], entries := [] }).dims.drop 1
    entries := (ts.map (fun t => t.entries)).flatten }

/-- The loading loop of `load_images_as_batch` (lines 70-85): load each
image, record the first height/width pair as the reference, and raise on the
first mismatch. -/
def loadBatchGo (fs : FS) (imgs : String → PILImage) :
    List String → Option (List Nat) → List Tensor → Except String Tensor
  | [], _, acc => .ok (catTensors acc)
  | p :: rest, reference_size, acc =>
    match load_image_as_tensor fs imgs p with
    | .error e => .error e
    | .ok t =>
      match reference_size with
      | none => loadBatchGo fs imgs rest (some (tensorHW t)) (acc ++ [t])
      | some r =>
        if !(tensorHW t == r) then
          .error ("Image size mismatch: expected " ++ toString r ++ ", got " ++
            toString (tensorHW t) ++ " for " ++ p)
        else loadBatchGo fs imgs rest (some r) (acc ++ [t])

/-- `load_images_as_batch` (src/utils/image_utils.py, lines 54-86). -/
def load_images_as_batch (fs : FS) (imgs : String → PILImage)
    (image_paths : List String) : Except String Tensor :=
  if image_paths.isEmpty then .error "No image paths provided"
  else loadBatchGo fs imgs image_paths none []

/-- The height/width pair `load_image_as_tensor` would report for the image
at `p` — the pair the batch loader compares. -/
def loadedHW (imgs : String → PILImage) (p : String) : List Nat :=
  [(convertRGB (imgs p)).pixels.length,
   ((convertRGB (imgs p)).pixels.headD []).length]

/-- `torch.clamp(tensor, 0.0, 1.0)` on one entry. -/
def clamp01 (q : ℚ) : ℚ := max 0 (min q 1)

/-- `(value * 255).astype(np.uint8)` after clamping: the scaled value is
non-negative, so the float-to-integer truncation is a floor. -/
def toByte (q : ℚ) : ℤ := ⌊clamp01 q * 255⌋

/-- The image data written by `save_tensor_as_image` once validation
passed. -/
structure SavedImage where
  dims : List Nat
  bytes : List ℤ
deriving Repr, DecidableEq

/-- `save_tensor_as_image` (src/utils/image_utils.py, lines 88-130): a
4-dimensional tensor must have batch size 1 and is squeezed; anything not 3-
or 4-dimensional is rejected; the entries are clamped to `[0, 1]` and scaled
to bytes. -/
def save_tensor_as_image (t : Tensor) : Except String SavedImage :=
  if t.dims.length == 4 then
    if !(t.dims.headD 0 == 1) then
      .error ("Expected single image, got batch size " ++ toString (t.dims.headD 0))
    else
      .ok { dims := t.dims.drop 1, bytes := t.entries.map toByte }
  else if !(t.dims.length == 3) then
    .error ("Expected 3D or 4D tensor, got " ++ toString t.dims.length ++ "D")
  else
    .ok { dims := t.dims, bytes := t.entries.map toByte }

/-! ## Theorems -/

theorem charsStartWith_self_append (p t : List Char) :
    charsStartWith p (p ++ t) = true := by
  induction p with
  | nil => rfl
  | cons c cs ih => simp [charsStartWith, ih]

theorem charsContains_append (a p b : List Char) :
    charsContains (a ++ (p ++ b)) p = true := by
  induction a with
  | nil =>
    cases p with
    | nil =>
      cases b with
      | nil => rfl
      | cons c cs => simp [charsContains, charsStartWith]
    | cons c cs => simp [charsContains, charsStartWith, charsStartWith_self_append]
  | cons c a ih => simp [charsContains, ih]

theorem strContainsSub_of_data (s pat : String) (a b : List Char)
    (h : s.data = a ++ pat.data ++ b) : strContainsSub s pat = true := by
  unfold strContainsSub
  rw [h, List.append_assoc]
  exact charsContains_append a pat.data b

/-- C6: the output categorizer lower-cases the filename stem and scans the
fixed pattern table in order, returning the first matching category or
`"other"`; on the four example filenames it yields `diffuse`, `normal`,
`roughness` and `other` respectively. -/
theorem categorize_examples :
    categorize "Brick_BaseColor.png" = "diffuse" ∧
    categorize "Brick_Normal.png" = "normal" ∧
    categorize "Brick_Roughness.png" = "roughness" ∧
    categorize "Brick_Weird.png" = "other" := by
  refine ⟨?_, ?_, ?_, ?_⟩ <;> decide

/-- C3: for every optimization_level in {0,1,2,3}, `cook` emits exactly the
fixed flag combination of the table, placed between the other argument
segments; levels outside the table emit no optimization flags at all. -/
theorem cook_optimization_flags :
    optimizationFlags 0 = ["--crc", "1", "--full", "0"] ∧
    optimizationFlags 1 = ["--full", "1"] ∧
    optimizationFlags 2 = ["--full", "1", "--merge-graph", "1"] ∧
    optimizationFlags 3 =
      ["--full", "1", "--merge-graph", "1", "--merge-data", "1", "--reordering", "1"] ∧
    (∀ level : Int, level ≠ 0 → level ≠ 1 → level ≠ 2 → level ≠ 3 →
      optimizationFlags level = []) ∧
    ∀ (validated : List String) (output_dir : String) (req : CookRequest),
      cookBuildArgs validated output_dir req =
        cookArgsBase validated output_dir req ++
        optimizationFlags req.optimization_level ++ cookArgsTail req := by
  refine ⟨by decide, by decide, by decide, by decide, ?_, fun _ _ _ => rfl⟩
  intro level h0 h1 h2 h3
  simp [optimizationFlags, h0, h1, h2, h3]

theorem cook_optimization_flags_witness : optimizationFlags 7 = [] :=
  cook_optimization_flags.2.2.2.2.1 7 (by decide) (by decide) (by decide) (by decide)

/-- C7: the command runner maps a non-zero exit code to an execution-failure
error whose message carries the exit code and the captured stderr (the
`SubstanceToolError` raised inside the `try` is re-caught by the generic
handler, so the surfaced message is the re-wrapped
`"Command execution failed: Command failed with return code ..."`), a
timeout to a timeout error, a vanished executable to a tool-not-found error,
and in every case spawns exactly one subprocess (no retry). -/
theorem run_command_failure_modes (tool_path : String) (timeout : Option Nat)
    (spawn : Nat → ProcOutcome) :
    (∀ (rc : Int) (out err : String), spawn 0 = .completed rc out err → rc ≠ 0 →
      (run_command tool_path timeout spawn).1 =
        .error ("Command execution failed: " ++ execFailedMsg rc err) ∧
      strContainsSub ("Command execution failed: " ++ execFailedMsg rc err)
        (toString rc) = true ∧
      (err ≠ "" →
        strContainsSub ("Command execution failed: " ++ execFailedMsg rc err)
          err = true)) ∧
    (spawn 0 = .timeoutExpired →
      (run_command tool_path timeout spawn).1 =
        .error ("Command timed out after " ++ timeoutRepr timeout ++ " seconds")) ∧
    (spawn 0 = .fileNotFound →
      (run_command tool_path timeout spawn).1 =
        .error ("Tool not found: " ++ tool_path)) ∧
    (run_command tool_path timeout spawn).2 = 1 := by
  refine ⟨?_, ?_, ?_, rfl⟩
  · intro rc out err hspawn hrc
    refine ⟨by simp [run_command, hspawn, hrc], ?_, ?_⟩
    · rcases eq_or_ne err "" with rfl | hne
      · exact strContainsSub_of_data _ _
          ("Command execution failed: " ++ "Command failed with return code ").data
          [] (by simp [execFailedMsg])
      · exact strContainsSub_of_data _ _
          ("Command execution failed: " ++ "Command failed with return code ").data
          (": " ++ err).data (by simp [execFailedMsg, hne])
    · intro hne
      exact strContainsSub_of_data _ _
        ("Command execution failed: " ++
          ("Command failed with return code " ++ toString rc ++ ": ")).data
        [] (by simp [execFailedMsg, hne])
  · intro hspawn; simp [run_command, hspawn]
  · intro hspawn; simp [run_command, hspawn]

theorem run_command_failure_modes_witness :
    (run_command "/usr/bin/sbscooker" (some 300)
      (fun _ => .completed 1 "" "boom")).1 =
        .error "Command execution failed: Command failed with return code 1: boom" ∧
    strContainsSub "Command execution failed: Command failed with return code 1: boom"
      "boom" = true ∧
    (run_command "/usr/bin/sbscooker" (some 300) (fun _ => .timeoutExpired)).1 =
      .error "Command timed out after 300 seconds" ∧
    (run_command "/usr/bin/sbsrender" none (fun _ => .fileNotFound)).1 =
      .error "Tool not found: /usr/bin/sbsrender" := by
  have hfail := (run_command_failure_modes "/usr/bin/sbscooker" (some 300)
    (fun _ => .completed 1 "" "boom")).1 1 "" "boom" rfl (by decide)
  have hmsg : "Command execution failed: " ++ execFailedMsg 1 "boom" =
      "Command execution failed: Command failed with return code 1: boom" := by
    decide
  refine ⟨hfail.1.trans (by rw [hmsg]), hmsg ▸ hfail.2.2 (by decide), ?_, ?_⟩
  · exact (run_command_failure_modes "/usr/bin/sbscooker" (some 300)
      (fun _ => .timeoutExpired)).2.1 rfl
  · exact (run_command_failure_modes "/usr/bin/sbsrender" none
      (fun _ => .fileNotFound)).2.2.1 rfl

theorem validateInputs_ok_sound (fs : FS) :
    ∀ (files vs : List String), validateInputs fs files = .ok vs →
      ∀ f ∈ files, fs.pathExists f = true ∧ strEndsWith (strToLower f) ".sbs" = true := by
  intro files
  induction files with
  | nil => intro vs _ f hf; cases hf
  | cons a rest ih =>
    intro vs h f hf
    by_cases h0 : a = ""
    · subst h0; simp [validateInputs, validate_file_path] at h
    · cases h1 : fs.pathExists a with
      | false => simp [validateInputs, validate_file_path, h0, h1] at h
      | true =>
        cases h2 : strEndsWith (strToLower a) ".sbs" with
        | false => simp [validateInputs, validate_file_path, h0, h1, h2] at h
        | true =>
          rcases List.mem_cons.mp hf with rfl | hf'
          · exact ⟨h1, h2⟩
          · simp only [validateInputs, validate_file_path, h0, h1, h2] at h
            cases hr : validateInputs fs rest with
            | error e =>
              rw [if_neg (by simpa using h0)] at h
              simp [h1, h2, hr] at h
            | ok vs' => exact ih vs' hr f hf'

/-- C4: a cook request containing an input path that does not exist (or
whose lower-cased name lacks the `.sbs` extension) fails during validation,
and the command runner receives no command at all: no subprocess is
spawned. -/
theorem cook_invalid_input_no_spawn (fs fsAfter : FS)
    (runner : List String → Except String CompletedProcess) (req : CookRequest)
    (hbad : ∃ f ∈ req.input_files,
      fs.pathExists f = false ∨ strEndsWith (strToLower f) ".sbs" = false) :
    ∃ msg, cook fs fsAfter runner req = (.error msg, []) := by
  cases hv : validateInputs fs req.input_files with
  | error e => exact ⟨e, by simp [cook, hv]⟩
  | ok vs =>
    exfalso
    obtain ⟨f, hmem, hbad'⟩ := hbad
    have hgood := validateInputs_ok_sound fs req.input_files vs hv f hmem
    rcases hbad' with h | h
    · rw [hgood.1] at h; cases h
    · rw [hgood.2] at h; cases h

theorem cook_invalid_input_no_spawn_witness :
    exceptIsOk (cook { pathExists := fun _ => false, listdir := fun _ => [] }
      { pathExists := fun _ => false, listdir := fun _ => [] }
      (fun _ => .ok { returncode := 0, stdout := "", stderr := "" })
      { input_files := ["missing.sbs"], output_path := "/out" }).1 = false ∧
    (cook { pathExists := fun _ => false, listdir := fun _ => [] }
      { pathExists := fun _ => false, listdir := fun _ => [] }
      (fun _ => .ok { returncode := 0, stdout := "", stderr := "" })
      { input_files := ["missing.sbs"], output_path := "/out" }).2 = [] := by
  obtain ⟨msg, h⟩ := cook_invalid_input_no_spawn
    { pathExists := fun _ => false, listdir := fun _ => [] }
    { pathExists := fun _ => false, listdir := fun _ => [] }
    (fun _ => .ok { returncode := 0, stdout := "", stderr := "" })
    { input_files := ["missing.sbs"], output_path := "/out" }
    ⟨"missing.sbs", by simp, Or.inl rfl⟩
  rw [h]
  exact ⟨rfl, rfl⟩

theorem imageEntryFlags_err (fs : FS) :
    ∀ entries : List (String × String),
      (∃ kv ∈ entries, fs.pathExists kv.2 = false) →
      ∃ e, imageEntryFlags fs entries = .error e := by
  intro entries
  induction entries with
  | nil => rintro ⟨kv, hkv, _⟩; cases hkv
  | cons a rest ih =>
    rintro ⟨kv, hkv, hmiss⟩
    rcases List.mem_cons.mp hkv with rfl | hkv'
    · exact ⟨"Image entry file not found: " ++ kv.2,
        by simp [imageEntryFlags, hmiss]⟩
    · cases hex : fs.pathExists a.2 with
      | false => exact ⟨"Image entry file not found: " ++ a.2,
          by simp [imageEntryFlags, hex]⟩
      | true =>
        obtain ⟨e, he⟩ := ih ⟨kv, hkv', hmiss⟩
        exact ⟨e, by simp [imageEntryFlags, hex, he]⟩

/-- C5: a render request with a valid archive path whose `image_entries`
reference a missing file fails while the argument vector is being built,
before the command runner is invoked: no subprocess is spawned. -/
theorem render_missing_entry_no_spawn (fs fsAfter : FS)
    (runner : List String → Except String CompletedProcess) (req : RenderRequest)
    (hex : fs.pathExists req.sbsar_file = true)
    (hext : strEndsWith (strToLower req.sbsar_file) ".sbsar" = true)
    (hmiss : ∃ kv ∈ req.image_entries, fs.pathExists kv.2 = false) :
    ∃ msg, render fs fsAfter runner req = (.error msg, []) := by
  have hne : ¬(req.sbsar_file = "") := by
    intro h0; rw [h0] at hext; exact absurd hext (by decide)
  obtain ⟨e, he⟩ := imageEntryFlags_err fs req.image_entries hmiss
  exact ⟨e, by simp [render, validate_file_path, hne, hex, hext,
    renderBuildArgs, he]⟩

theorem render_missing_entry_no_spawn_witness :
    exceptIsOk (render
      { pathExists := fun p => p == "/in/mat.sbsar", listdir := fun _ => [] }
      { pathExists := fun p => p == "/in/mat.sbsar", listdir := fun _ => [] }
      (fun _ => .ok { returncode := 0, stdout := "", stderr := "" })
      { sbsar_file := "/in/mat.sbsar", output_path := "/out",
        image_entries := [("input_image", "/in/missing.png")] }).1 = false ∧
    (render
      { pathExists := fun p => p == "/in/mat.sbsar", listdir := fun _ => [] }
      { pathExists := fun p => p == "/in/mat.sbsar", listdir := fun _ => [] }
      (fun _ => .ok { returncode := 0, stdout := "", stderr := "" })
      { sbsar_file := "/in/mat.sbsar", output_path := "/out",
        image_entries := [("input_image", "/in/missing.png")] }).2 = [] := by
  obtain ⟨msg, h⟩ := render_missing_entry_no_spawn
    { pathExists := fun p => p == "/in/mat.sbsar", listdir := fun _ => [] }
    { pathExists := fun p => p == "/in/mat.sbsar", listdir := fun _ => [] }
    (fun _ => .ok { returncode := 0, stdout := "", stderr := "" })
    { sbsar_file := "/in/mat.sbsar", output_path := "/out",
      image_entries := [("input_image", "/in/missing.png")] }
    (by decide) (by decide) ⟨("input_image", "/in/missing.png"), by simp, by decide⟩
  rw [h]
  exact ⟨rfl, rfl⟩

theorem filterMap_ite_eq_map_filter {α β : Type} (p : α → Bool) (g : α → β)
    (l : List α) :
    l.filterMap (fun a => if p a then some (g a) else none) = (l.filter p).map g := by
  induction l with
  | nil => rfl
  | cons a l ih => cases hp : p a <;> simp [List.filterMap_cons, List.filter_cons, hp, ih]

/-- C2: on a successful render into an existing output directory, the
reported `output_files` are exactly the entries of that directory whose
lower-cased names end with the requested format's extension — the whole
directory, including files that predate the invocation — joined onto the
directory path. -/
theorem render_output_discovery (fs fsAfter : FS)
    (runner : List String → Except String CompletedProcess) (req : RenderRequest)
    (r : RenderResult) (cmds : List (List String))
    (h : render fs fsAfter runner req = (.ok r, cmds))
    (hdir : fsAfter.pathExists req.output_path = true) :
    r.output_files = ((fsAfter.listdir req.output_path).filter
        (fun file => strEndsWith (strToLower file)
          ("." ++ strToLower req.output_format))).map (joinPath req.output_path) ∧
    r.output_files.length = ((fsAfter.listdir req.output_path).filter
        (fun file => strEndsWith (strToLower file)
          ("." ++ strToLower req.output_format))).length := by
  have hout : r.output_files = renderDiscover fsAfter req.output_path req.output_format := by
    cases hv : validate_file_path fs req.sbsar_file true with
    | error e => simp [render, hv] at h
    | ok v =>
      cases hext : strEndsWith (strToLower v) ".sbsar" with
      | false => simp [render, hv, hext] at h
      | true =>
        cases hargs : renderBuildArgs fs v req.output_path req with
        | error e => simp [render, hv, hext, hargs] at h
        | ok args =>
          cases hrun : runner args with
          | error e => simp [render, hv, hext, hargs, hrun] at h
          | ok result =>
            simp only [render, hv, hext, hargs, hrun, Bool.not_true,
              Bool.false_eq_true, if_false, Prod.mk.injEq] at h
            injection h.1 with hrec
            rw [← hrec]
  rw [hout]
  unfold renderDiscover
  rw [if_pos hdir, filterMap_ite_eq_map_filter]
  exact ⟨rfl, by rw [List.length_map]⟩

theorem render_output_discovery_witness :
    ((render
      { pathExists := fun p => p == "/m.sbsar" || p == "/out",
        listdir := fun _ => ["stale.png", "new.PNG", "note.txt"] }
      { pathExists := fun p => p == "/m.sbsar" || p == "/out",
        listdir := fun _ => ["stale.png", "new.PNG", "note.txt"] }
      (fun _ => .ok { returncode := 0, stdout := "", stderr := "" })
      { sbsar_file := "/m.sbsar", output_path := "/out" }).1.map
        (fun r => r.output_files)) = .ok ["/out/stale.png", "/out/new.PNG"] := by
  obtain ⟨r, cmds, hE⟩ : ∃ r cmds, render
      { pathExists := fun p => p == "/m.sbsar" || p == "/out",
        listdir := fun _ => ["stale.png", "new.PNG", "note.txt"] }
      { pathExists := fun p => p == "/m.sbsar" || p == "/out",
        listdir := fun _ => ["stale.png", "new.PNG", "note.txt"] }
      (fun _ => .ok { returncode := 0, stdout := "", stderr := "" })
      { sbsar_file := "/m.sbsar", output_path := "/out" } = (.ok r, cmds) :=
    ⟨_, _, rfl⟩
  have hmain := render_output_discovery _ _ _ _ r cmds hE rfl
  rw [hE]
  show Except.ok r.output_files = _
  rw [hmain.1]
  rfl

/-- C10: `cook` probes only `{output_name}.sbsar` exactly when `merge` is
set and `output_name` is truthy; with `merge` but no `output_name` it probes
one `{stem}.sbsar` per input instead, so a merged cook without an explicit
output name can return `success` with an empty `output_files` list. -/
theorem cook_merge_probe_branches :
    (∀ (fsAfter : FS) (output_dir : String) (validated : List String)
        (output_name : Option String) (merge : Bool),
      optTruthy output_name = false →
      cookOutputFiles fsAfter output_dir validated output_name merge =
        validated.filterMap (fun input =>
          if fsAfter.pathExists (joinPath output_dir (stem input ++ ".sbsar")) then
            some (joinPath output_dir (stem input ++ ".sbsar"))
          else none)) ∧
    (∀ (fsAfter : FS) (output_dir : String) (validated : List String) (n : String),
      n ≠ "" →
      cookOutputFiles fsAfter output_dir validated (some n) true =
        (if fsAfter.pathExists (joinPath output_dir (n ++ ".sbsar")) then
          [joinPath output_dir (n ++ ".sbsar")] else [])) ∧
    ((cook { pathExists := fun p => p == "a.sbs", listdir := fun _ => [] }
        { pathExists := fun p => p == "a.sbs", listdir := fun _ => [] }
        (fun _ => .ok { returncode := 0, stdout := "", stderr := "" })
        { input_files := ["a.sbs"], output_path := "/out", merge := true }).1.map
          (fun r => (r.success, r.output_files)) = .ok (true, ([] : List String))) := by
  refine ⟨?_, ?_, rfl⟩
  · intro fsAfter output_dir validated output_name merge hname
    simp [cookOutputFiles, hname]
  · intro fsAfter output_dir validated n hn
    simp [cookOutputFiles, optTruthy, hn]

theorem cook_merge_probe_branches_witness :
    cookOutputFiles { pathExists := fun _ => false, listdir := fun _ => [] }
      "/out" ["a.sbs", "b.sbs"] none true = [] ∧
    cookOutputFiles { pathExists := fun p => p == "/out/merged.sbsar", listdir := fun _ => [] }
      "/out" ["a.sbs", "b.sbs"] (some "merged") true = ["/out/merged.sbsar"] := by
  constructor
  · rw [cook_merge_probe_branches.1 _ _ _ none true rfl]
    decide
  · rw [cook_merge_probe_branches.2.1 _ _ _ "merged" (by decide)]
    decide

theorem organize_foldl_char (files : List String) :
    ∀ m : List (String × List String),
      files.foldl (fun m f => addToCategory m (categorize f) f) m =
        m.map (fun kv => (kv.1, kv.2 ++ files.filter (fun f => categorize f == kv.1))) := by
  induction files with
  | nil => intro m; simp
  | cons a fs ih =>
    intro m
    rw [List.foldl_cons, ih]
    unfold addToCategory
    rw [List.map_map]
    apply List.map_congr_left
    intro kv _
    simp only [Function.comp]
    by_cases hc : kv.1 = categorize a
    · have h1 : (kv.1 == categorize a) = true := beq_iff_eq.mpr hc
      have h2 : (categorize a == kv.1) = true := beq_iff_eq.mpr hc.symm
      simp [h1, h2, List.filter_cons]
    · have h1 : (kv.1 == categorize a) = false := beq_eq_false_iff_ne.mpr hc
      have h2 : (categorize a == kv.1) = false := beq_eq_false_iff_ne.mpr (Ne.symm hc)
      simp [h1, h2, List.filter_cons]

theorem organize_eq_filters (files : List String) :
    organize_output_files files =
      (categories.map (fun c =>
        (c, files.filter (fun f => categorize f == c)))).filter
        (fun kv => !kv.2.isEmpty) := by
  unfold organize_output_files organizedInit
  rw [organize_foldl_char, List.map_map]
  congr 1

theorem categorize_mem (f : String) : categorize f ∈ categories := by
  unfold categorize
  cases h : patternTable.find? (fun cp =>
      cp.2.any (fun pat => strContainsSub (strToLower (stem f)) pat)) with
  | none => simp [categories]
  | some cp =>
    have hmem := List.mem_of_find?_eq_some h
    simp only [patternTable, List.mem_cons, List.not_mem_nil, or_false] at hmem
    rcases hmem with rfl | rfl | rfl | rfl | rfl | rfl | rfl | rfl <;> simp [categories]

theorem count_filter_eq {α : Type} [DecidableEq α] (q : α → Bool) (l : List α)
    (a : α) :
    (l.filter q).count a = if q a then l.count a else 0 := by
  induction l with
  | nil => simp
  | cons b l ih =>
    by_cases hab : b = a
    · subst hab
      cases hqb : q b <;> simp [List.filter_cons, hqb, List.count_cons, ih]
    · cases hqb : q b <;> simp [List.filter_cons, hqb, List.count_cons, hab, ih]

theorem flatten_filter_count {α : Type} [DecidableEq α]
    (l : List (String × List α)) (x : α) :
    (((l.filter (fun kv => !kv.2.isEmpty)).map Prod.snd).flatten).count x =
      ((l.map Prod.snd).flatten).count x := by
  induction l with
  | nil => rfl
  | cons kv rest ih =>
    cases he : kv.2.isEmpty
    · simp [List.filter_cons, he, ih]
    · have hnil : kv.2 = [] := List.isEmpty_iff.mp he
      simp [List.filter_cons, he, hnil, ih]

/-- C9: the categorizer's output is a partition of its input: every category
present holds exactly the input files it classified (in particular
non-empty), category keys are pairwise distinct, and the value lists
together contain exactly the input paths (with multiplicity). -/
theorem organize_output_files_partition (output_files : List String) :
    (∀ kv ∈ organize_output_files output_files,
       kv.2 ≠ [] ∧
       kv.2 = output_files.filter (fun f => categorize f == kv.1) ∧
       ∀ f, f ∈ kv.2 ↔ (f ∈ output_files ∧ categorize f = kv.1)) ∧
    ((organize_output_files output_files).map Prod.fst).Nodup ∧
    ∀ f, (((organize_output_files output_files).map Prod.snd).flatten).count f =
      output_files.count f := by
  have horg := organize_eq_filters output_files
  refine ⟨?_, ?_, ?_⟩
  · intro kv hkv
    rw [horg] at hkv
    have hf := List.mem_filter.mp hkv
    obtain ⟨c, _, rfl⟩ := List.mem_map.mp hf.1
    refine ⟨?_, rfl, ?_⟩
    · intro hnil
      have := hf.2
      rw [hnil] at this
      simp at this
    · intro f
      simp [List.mem_filter, beq_iff_eq]
  · rw [horg]
    have hsub : List.Sublist
        (((categories.map (fun c =>
          (c, output_files.filter (fun f => categorize f == c)))).filter
          (fun kv => !kv.2.isEmpty)).map Prod.fst)
        ((categories.map (fun c =>
          (c, output_files.filter (fun f => categorize f == c)))).map Prod.fst) :=
      (List.filter_sublist _).map Prod.fst
    have hkeys : ((categories.map (fun c =>
        (c, output_files.filter (fun f => categorize f == c)))).map Prod.fst) =
        categories := by
      rw [List.map_map]
      exact (List.map_congr_left (fun c _ => rfl)).trans (List.map_id categories)
    rw [hkeys] at hsub
    exact hsub.nodup (by decide)
  · intro f
    rw [horg, flatten_filter_count, List.map_map]
    have hmem := categorize_mem f
    simp only [categories, List.mem_cons, List.not_mem_nil, or_false] at hmem
    simp only [categories, List.map_cons, List.map_nil, Function.comp,
      List.flatten_cons, List.flatten_nil, List.append_nil]
    rcases hmem with h | h | h | h | h | h | h | h | h <;>
      simp [List.count_append, count_filter_eq, h]

theorem organize_output_files_partition_witness :
    (("normal", ["a_normal.png"]) : String × List String).2 ≠ [] ∧
    (((organize_output_files ["a_normal.png"]).map Prod.snd).flatten).count
      "a_normal.png" = 1 := by
  refine ⟨((organize_output_files_partition ["a_normal.png"]).1
    ("normal", ["a_normal.png"]) (by decide)).1, ?_⟩
  rw [(organize_output_files_partition ["a_normal.png"]).2.2 "a_normal.png"]
  decide

theorem process_single_file_isOk (e : UnitEnv) (mode : String) :
    exceptIsOk (process_single_file e mode) = e.makedirsOutcome.isNone := by
  cases hm : e.makedirsOutcome with
  | some msg => simp [process_single_file, hm, exceptIsOk]
  | none =>
    simp only [process_single_file, hm, Option.isNone_none]
    cases e.cookOutcome <;> cases e.renderOutcome <;>
      · repeat' split
        all_goals rfl

/-- C1 counterexample: in a 3-file × 2-parameter-set batch in which exactly
one unit fails (its cook call raises), the failing unit is returned as a
result dictionary with `success = false` — so `process_batch` counts it
among `successfully_processed` and reports `errors = 0` and a 100.0% success
rate, not the claimed 5/1/83.3% split. -/
theorem batch_unit_failure_not_in_errors_cex :
    process_single_file
      { makedirsOutcome := none, cookOutcome := .raise "boom", renderOutcome := .ok [] }
      "cook_and_render" =
      .ok { success := false, error := some "boom", cooked_file := none,
            rendered_files := [] } ∧
    process_batch ["a.sbs", "b.sbs", "c.sbs"]
      [[("roughness", "0.2")], [("roughness", "0.8")]]
      (fun f i =>
        if f == "b.sbs" && i == 1 then
          { makedirsOutcome := none, cookOutcome := .raise "boom",
            renderOutcome := .ok [] }
        else
          { makedirsOutcome := none, cookOutcome := .ok ["/out/m.sbsar"],
            renderOutcome := .ok ["/out/m_basecolor.png"] })
      "cook_and_render" =
      { total_input_files := 3, parameter_variations := 2,
        total_expected_outputs := 6, successfully_processed := 6,
        errors := 0, success_rate := "100.0%" } := by
  exact ⟨rfl, rfl⟩

/-- C1 (amended): `process_batch` counts a unit among `errors` exactly when
its `_process_single_file` call raises — which only the statements before
that function's internal `try` block (directory creation) can do: with one
such escaping failure among 3 files × 2 parameter sets the summary is
6 expected / 5 processed / 1 error / "83.3%".  A tool failure inside the
cook/render phases is caught per-unit, returned with `success = false`, and
counted among `successfully_processed` instead. -/
theorem process_batch_summary_amended :
    (∀ (input_files : List String) (parameter_sets : List (List (String × String)))
        (env : String → Nat → UnitEnv) (mode : String),
      (process_batch input_files parameter_sets env mode).errors =
        (batchUnits input_files parameter_sets.length).countP
          (fun fi => (env fi.1 fi.2).makedirsOutcome.isSome) ∧
      (process_batch input_files parameter_sets env mode).successfully_processed =
        (batchUnits input_files parameter_sets.length).countP
          (fun fi => (env fi.1 fi.2).makedirsOutcome.isNone)) ∧
    (∀ (e : UnitEnv) (m : String), e.makedirsOutcome = none → e.cookOutcome = .raise m →
      process_single_file e "cook_and_render" =
        .ok { success := false, error := some m, cooked_file := none,
              rendered_files := [] }) ∧
    process_batch ["a.sbs", "b.sbs", "c.sbs"] [[("r", "1")], [("r", "2")]]
      (fun f i =>
        if f == "b.sbs" && i == 1 then
          { makedirsOutcome := some "Permission denied",
            cookOutcome := .ok [], renderOutcome := .ok [] }
        else
          { makedirsOutcome := none, cookOutcome := .ok ["/out/m.sbsar"],
            renderOutcome := .ok ["/out/m_basecolor.png"] })
      "cook_and_render" =
      { total_input_files := 3, parameter_variations := 2,
        total_expected_outputs := 6, successfully_processed := 5,
        errors := 1, success_rate := "83.3%" } := by
  refine ⟨?_, ?_, rfl⟩
  · intro input_files parameter_sets env mode
    constructor
    · show ((batchUnits input_files parameter_sets.length).map
        (fun fi => process_single_file (env fi.1 fi.2) mode)).countP
          (fun r => !(exceptIsOk r)) = _
      rw [List.countP_map]
      apply List.countP_congr
      intro fi _
      simp only [Function.comp_apply, process_single_file_isOk]
      cases (env fi.1 fi.2).makedirsOutcome <;> simp
    · show ((batchUnits input_files parameter_sets.length).map
        (fun fi => process_single_file (env fi.1 fi.2) mode)).countP
          (fun r => exceptIsOk r) = _
      rw [List.countP_map]
      apply List.countP_congr
      intro fi _
      simp only [Function.comp_apply, process_single_file_isOk]
  · intro e m hm hc
    simp [process_single_file, hm, hc]

theorem process_batch_summary_amended_witness :
    process_single_file
      { makedirsOutcome := none, cookOutcome := .raise "cook exploded",
        renderOutcome := .ok [] } "cook_and_render" =
      .ok { success := false, error := some "cook exploded", cooked_file := none,
            rendered_files := [] } :=
  process_batch_summary_amended.2.1
    { makedirsOutcome := none, cookOutcome := .raise "cook exploded",
      renderOutcome := .ok [] } "cook exploded" rfl rfl

theorem load_image_ok_hw (fs : FS) (imgs : String → PILImage) (p : String)
    (t : Tensor) (h : load_image_as_tensor fs imgs p = .ok t) :
    tensorHW t = loadedHW imgs p := by
  cases hp : fs.pathExists p with
  | false => simp [load_image_as_tensor, hp] at h
  | true =>
    simp only [load_image_as_tensor, hp, Bool.not_true, Bool.false_eq_true,
      if_false, Except.ok.injEq] at h
    rw [← h]
    rfl

theorem loadBatchGo_ok_hw (fs : FS) (imgs : String → PILImage) :
    ∀ (paths : List String) (r : List Nat) (acc : List Tensor) (t : Tensor),
      loadBatchGo fs imgs paths (some r) acc = .ok t →
      ∀ p ∈ paths, loadedHW imgs p = r := by
  intro paths
  induction paths with
  | nil => intro r acc t _ p hp; cases hp
  | cons q rest ih =>
    intro r acc t h p hp
    cases hl : load_image_as_tensor fs imgs q with
    | error e => simp [loadBatchGo, hl] at h
    | ok tq =>
      have hhw := load_image_ok_hw fs imgs q tq hl
      simp only [loadBatchGo, hl] at h
      cases hcmp : (tensorHW tq == r) with
      | false => simp [hcmp] at h
      | true =>
        have heq : tensorHW tq = r := beq_iff_eq.mp hcmp
        simp only [hcmp, Bool.not_true, Bool.false_eq_true, if_false] at h
        rcases List.mem_cons.mp hp with rfl | hp'
        · rw [← hhw, heq]
        · exact ih r (acc ++ [tq]) t h p hp'

/-- C8: the image bridge enforces its shape contracts: saving rejects every
4-dimensional tensor whose batch size differs from 1 and every tensor that
is neither 3- nor 4-dimensional; batch loading fails whenever two listed
images would load with different height/width pairs; and every loaded image
is RGB with exactly three channels and entries scaled into `[0, 1]`. -/
theorem image_bridge_contracts :
    (∀ t : Tensor, t.dims.length = 4 → t.dims.headD 0 ≠ 1 →
      save_tensor_as_image t =
        .error ("Expected single image, got batch size " ++ toString (t.dims.headD 0))) ∧
    (∀ t : Tensor, t.dims.length ≠ 4 → t.dims.length ≠ 3 →
      save_tensor_as_image t =
        .error ("Expected 3D or 4D tensor, got " ++ toString t.dims.length ++ "D")) ∧
    (∀ (fs : FS) (imgs : String → PILImage) (paths : List String) (p q : String),
      p ∈ paths → q ∈ paths → loadedHW imgs p ≠ loadedHW imgs q →
      exceptIsOk (load_images_as_batch fs imgs paths) = false) ∧
    (∀ (fs : FS) (imgs : String → PILImage) (p : String) (t : Tensor),
      (imgs p).wfRGB = true → load_image_as_tensor fs imgs p = .ok t →
      t.dims.getD 3 0 = 3 ∧
      (∀ row ∈ (convertRGB (imgs p)).pixels, ∀ px ∈ row, px.length = 3) ∧
      ∀ v ∈ t.entries, 0 ≤ v ∧ v ≤ 1) := by
  refine ⟨?_, ?_, ?_, ?_⟩
  · intro t h4 hb
    simp [save_tensor_as_image, h4]
    simpa using hb
  · intro t h4 h3
    simp [save_tensor_as_image, h4, h3]
  · intro fs imgs paths p q hp hq hne
    cases hres : load_images_as_batch fs imgs paths with
    | error e => rfl
    | ok t =>
      exfalso
      cases paths with
      | nil => cases hp
      | cons a rest =>
        have hne' : ¬((a :: rest).isEmpty = true) := by simp
        simp only [load_images_as_batch, hne', if_false, Bool.false_eq_true] at hres
        cases hl : load_image_as_tensor fs imgs a with
        | error e => simp [loadBatchGo, hl] at hres
        | ok ta =>
          simp only [loadBatchGo, hl] at hres
          have hall : ∀ x ∈ a :: rest, loadedHW imgs x = tensorHW ta := by
            intro x hx
            rcases List.mem_cons.mp hx with rfl | hx'
            · exact (load_image_ok_hw fs imgs x ta hl).symm
            · exact loadBatchGo_ok_hw fs imgs rest (tensorHW ta) [ta] t hres x hx'
          exact hne ((hall p hp).trans (hall q hq).symm)
  · intro fs imgs p t hwf hload
    cases hp : fs.pathExists p with
    | false => simp [load_image_as_tensor, hp] at hload
    | true =>
      simp only [load_image_as_tensor, hp, Bool.not_true, Bool.false_eq_true,
        if_false, Except.ok.injEq] at hload
      have hch : ∀ row ∈ (convertRGB (imgs p)).pixels, ∀ px ∈ row, px.length = 3 := by
        intro row hrow px hpx
        unfold convertRGB at hrow
        cases hm : ((imgs p).mode == "RGB") with
        | true =>
          rw [hm] at hrow
          simp only [if_true] at hrow
          unfold PILImage.wfRGB at hwf
          rw [hm] at hwf
          simp only [Bool.not_true, Bool.false_or, List.all_eq_true] at hwf
          exact beq_iff_eq.mp (hwf row hrow px hpx)
        | false =>
          rw [hm] at hrow
          simp only [Bool.false_eq_true, if_false] at hrow
          obtain ⟨row0, _, rfl⟩ := List.mem_map.mp hrow
          obtain ⟨px0, _, rfl⟩ := List.mem_map.mp hpx
          rfl
      refine ⟨by rw [← hload]; rfl, hch, ?_⟩
      intro v hv
      rw [← hload] at hv
      simp only [List.mem_flatten, List.mem_map] at hv
      obtain ⟨l, ⟨px, _, rfl⟩, hvl⟩ := hv
      obtain ⟨c, _, rfl⟩ := List.mem_map.mp hvl
      constructor
      · positivity
      · rw [div_le_one (by norm_num)]
        have hc : (c.val : ℚ) ≤ 255 := by
          have := c.isLt
          exact_mod_cast Nat.le_of_lt_succ this
        exact hc

theorem image_bridge_contracts_witness :
    save_tensor_as_image { dims := [2, 1, 1, 3], entries := [] } =
      .error "Expected single image, got batch size 2" ∧
    save_tensor_as_image { dims := [5, 5], entries := [] } =
      .error "Expected 3D or 4D tensor, got 2D" ∧
    exceptIsOk (load_images_as_batch
      { pathExists := fun _ => true, listdir := fun _ => [] }
      (fun p => if p == "a.png" then { mode := "L", pixels := [[[7]]] }
        else { mode := "L", pixels := [[[7], [7]]] })
      ["a.png", "b.png"]) = false ∧
    (0 : ℚ) ≤ (128 : ℚ) / 255 ∧ (128 : ℚ) / 255 ≤ 1 := by
  have h1 := image_bridge_contracts.1 { dims := [2, 1, 1, 3], entries := [] }
    (by decide) (by decide)
  have h2 := image_bridge_contracts.2.1 { dims := [5, 5], entries := [] }
    (by decide) (by decide)
  have h3 := image_bridge_contracts.2.2.1
    { pathExists := fun _ => true, listdir := fun _ => [] }
    (fun p => if p == "a.png" then { mode := "L", pixels := [[[7]]] }
      else { mode := "L", pixels := [[[7], [7]]] })
    ["a.png", "b.png"] "a.png" "b.png" (by simp) (by simp) (by decide)
  have hL : load_image_as_tensor
      { pathExists := fun _ => true, listdir := fun _ => [] }
      (fun _ => PILImage.mk "RGB" [[[(128 : Fin 256), (7 : Fin 256), (200 : Fin 256)]]])
      "a.png" =
      .ok { dims := [1, 1, 1, 3],
            entries := [(128 : ℚ) / 255, (7 : ℚ) / 255, (200 : ℚ) / 255] } := by
    rfl
  have h4 := (image_bridge_contracts.2.2.2
    { pathExists := fun _ => true, listdir := fun _ => [] }
    (fun _ => PILImage.mk "RGB" [[[(128 : Fin 256), (7 : Fin 256), (200 : Fin 256)]]])
    "a.png" _ (by decide) hL).2.2 ((128 : ℚ) / 255) (by simp)
  exact ⟨h1, h2, h3, h4⟩

end Substance
